import Mathlib

/-!
Shallow embedding of the pybusta indexing and search core
(`src/pybusta/core/book_index.py`, `database.py`, `models.py`).
Python string primitives are modelled at the character-list level
(ASCII case folding and whitespace, as used by the SQLite backend and
the catalog data; Unicode-only corners such as non-ASCII case pairs and
numeric-literal underscores are outside the behaviours verified here).
-/

namespace Pybusta

/-- Characters treated as whitespace by `str.strip` / `str.split`. -/
def isPySpace (c : Char) : Bool := c.isWhitespace

/-- Strip leading and trailing whitespace from a character list
(model of Python `str.strip()`). -/
def stripList (l : List Char) : List Char :=
  List.dropWhile isPySpace ((List.dropWhile isPySpace l.reverse).reverse)

/-- Model of Python `str.strip()`. -/
def pyStrip (s : String) : String := String.mk (stripList s.data)

/-- Model of Python `str.replace(a, b)` for single-character `a`, `b`. -/
def pyReplaceChar (a b : Char) (s : String) : String :=
  String.mk (s.data.map (fun c => if c = a then b else c))

/-- Model of Python `str.replace(a, "")` for a single-character `a`. -/
def pyDeleteChar (a : Char) (s : String) : String :=
  String.mk (s.data.filter (fun c => c ≠ a))

/-- Splitter on a character predicate, keeping empty pieces, matching
Python `str.split(sep)` for a one-character separator when the
predicate is equality with that separator. -/
def splitListByAux (p : Char → Bool) (l : List Char) (acc : List Char) :
    List (List Char) :=
  match l with
  | [] => [acc.reverse]
  | c :: rest =>
    if p c then acc.reverse :: splitListByAux p rest []
    else splitListByAux p rest (c :: acc)

/-- Split a character list at every character satisfying `p`. -/
def splitListBy (p : Char → Bool) (l : List Char) : List (List Char) :=
  splitListByAux p l []

/-- Model of Python `line.split(sep)` for the one-byte 0x04 separator. -/
def pySplitSep (s : String) : List String :=
  (splitListBy (fun c => c = '\x04') s.data).map String.mk

/-- ASCII-lower a string character by character, the case folding SQLite
`lower()` applies inside `ilike`. -/
def pyLower (s : String) : String := String.mk (s.data.map Char.toLower)

/-- ASCII-upper a string character by character (Python `str.upper()`
restricted to ASCII). -/
def pyUpper (s : String) : String := String.mk (s.data.map Char.toUpper)

/-- Digit list to numeric value (base 10). -/
def digitsToNat (l : List Char) : Nat :=
  l.foldl (fun acc c => 10 * acc + (c.toNat - 48)) 0

/-- Model of Python `int(s)` on a string: optional surrounding whitespace,
optional sign, then a non-empty run of decimal digits; `none` models the
`ValueError` raised on any other shape. -/
def pyParseInt (s : String) : Option Int :=
  match stripList s.data with
  | [] => none
  | c :: ds =>
    if c = '-' then
      if !ds.isEmpty && ds.all Char.isDigit then some (-(digitsToNat ds : Int)) else none
    else if c = '+' then
      if !ds.isEmpty && ds.all Char.isDigit then some ((digitsToNat ds : Int)) else none
    else if (c :: ds).all Char.isDigit then some ((digitsToNat (c :: ds) : Int)) else none

/-- Model of `int(s)` guarded by `except: 0`, as in the size-field cleaning. -/
def pyIntOr0 (s : String) : Int := (pyParseInt s).getD 0

/-- Model of Python `s.split()`: split on whitespace runs, dropping empties. -/
def pySplitWs (s : String) : List String :=
  ((splitListBy isPySpace s.data).map String.mk).filter (fun t => t ≠ "")

/-- Substring test on character lists. -/
def isSubList : List Char → List Char → Bool
  | needle, [] => needle.isEmpty
  | needle, h :: t => needle.isPrefixOf (h :: t) || isSubList needle t

/-- Case-insensitive containment: the semantics of the SQL condition
`lower(column) LIKE lower('%term%')` produced by `ilike` for a term
without LIKE metacharacters. -/
def ilikeContains (s pat : String) : Bool :=
  isSubList (pyLower pat).data (pyLower s).data

/-- Filename sanitization used by `extract_book`: keep only alphanumerics,
space, hyphen, underscore, then trim. -/
def sanitizeName (s : String) : String :=
  pyStrip (String.mk (s.data.filter (fun c => c.isAlphanum || c = ' ' || c = '-' || c = '_')))

/-- Decidable equality for `Except`, for concrete evaluation of
fallible steps. -/
instance exceptDecEq {ε α : Type} [DecidableEq ε] [DecidableEq α] :
    DecidableEq (Except ε α) := fun a b =>
  match a, b with
  | Except.error e1, Except.error e2 =>
    if h : e1 = e2 then isTrue (by rw [h])
    else isFalse (fun hc => h (Except.error.inj hc))
  | Except.error _, Except.ok _ => isFalse (fun hc => Except.noConfusion hc)
  | Except.ok _, Except.error _ => isFalse (fun hc => Except.noConfusion hc)
  | Except.ok a1, Except.ok a2 =>
    if h : a1 = a2 then isTrue (by rw [h])
    else isFalse (fun hc => h (Except.ok.inj hc))

/-- The cleaned per-line book-data mapping produced by
`BookIndex._parse_book_metadata` (all keys of the field mapping are
present once a line has at least 12 fields). -/
structure BookData where
  bookid : String
  title : String
  author : String
  genre : String
  language : String
  format : String
  date_added : String
  size : Int
  archive_file : String
deriving DecidableEq, Repr

/-- A row of the `books` table (`database.BookRecord`); `id` is the
primary key.  The `date_added` server default is not part of the
behaviours verified here. -/
structure BookRow where
  id : Int
  title : String
  author : String
  genre : String
  language : String
  format : String
  size : Int
  archive_file : String
deriving DecidableEq, Repr

/-- A row of the `book_search` projection table
(`database.BookSearchRecord`); the primary key is the autoincrement
`rowid`, while `id` is merely an indexed, non-unique column. -/
structure SearchRow where
  rowid : Nat
  id : Int
  author : String
  title : String
  language : String
deriving DecidableEq, Repr

/-- The visible state of the store: the `books` table, the
`book_search` projection table, and the next fresh SQLite rowid. -/
structure DbState where
  books : List BookRow
  search : List SearchRow
  nextRowid : Nat
deriving DecidableEq, Repr

/-- The empty store. -/
def emptyDb : DbState := { books := [], search := [], nextRowid := 0 }

/-- Field `i` of a catalog line as the field mapping reads it:
strip the line, split on the 0x04 separator, take position `i`, strip. -/
def parsedField (line : String) (i : Nat) : String :=
  pyStrip (((pySplitSep (pyStrip line)).get? i).getD "")

/-- The cleaned author: commas become spaces, colons are removed, then
the result is trimmed. -/
def cleanedAuthor (line : String) : String :=
  pyStrip (pyDeleteChar ':' (pyReplaceChar ',' ' ' (parsedField line 0)))

/-- The cleaned genre: colons removed, then trimmed. -/
def cleanedGenre (line : String) : String :=
  pyStrip (pyDeleteChar ':' (parsedField line 1))

/-- The cleaned title: the raw field, trimmed. -/
def cleanedTitle (line : String) : String :=
  pyStrip (parsedField line 2)

/-- Model of `BookIndex._parse_book_metadata`: reject lines with fewer
than 12 separator-delimited fields, map fixed positions to fields, clean
author/title/genre, parse size with a 0 default, and reject records with
an empty id, title, or author.  Internal exceptions are caught in the
source and mapped to `None`, so the model is total with `Option`. -/
def parseBookMetadata (line archiveName : String) : Option BookData :=
  if (pySplitSep (pyStrip line)).length < 12 then none
  else if parsedField line 5 = "" || cleanedTitle line = "" || cleanedAuthor line = ""
    then none
  else some {
    bookid := parsedField line 5, title := cleanedTitle line,
    author := cleanedAuthor line, genre := cleanedGenre line,
    language := parsedField line 11, format := parsedField line 9,
    date_added := parsedField line 10, size := pyIntOr0 (parsedField line 6),
    archive_file := archiveName }

/-- Primary-key merge on the `books` table (`session.merge` with the
`id` primary key set): replace the row with the same id when one
exists, insert otherwise. -/
def mergeBookById (tbl : List BookRow) (r : BookRow) : List BookRow :=
  if tbl.any (fun x => x.id == r.id) then
    tbl.map (fun x => if x.id == r.id then r else x)
  else tbl ++ [r]

/-- The `books` row built by `_store_book_data` from parsed data. -/
def bookRowOf (bd : BookData) (bid : Int) : BookRow :=
  { id := bid, title := bd.title, author := bd.author, genre := bd.genre,
    language := bd.language, format := bd.format, size := bd.size,
    archive_file := bd.archive_file }

/-- The `book_search` projection row built by `_store_book_data`:
upper-cased author and title, with a fresh SQLite rowid. -/
def searchRowOf (bd : BookData) (bid : Int) (rowid : Nat) : SearchRow :=
  { rowid := rowid, id := bid, author := pyUpper bd.author,
    title := pyUpper bd.title, language := bd.language }

/-- Model of `BookIndex._store_book_data`.  `int(book_data['bookid'])`
may raise, which the source re-raises to the per-line handler, hence
`Except`.  The `books` merge is a true upsert (primary key `id` is
set); the `book_search` merge receives a record whose primary key
`rowid` is unset, so SQLAlchemy treats it as transient and INSERTS a
fresh row with a new rowid. -/
def storeBookData (st : DbState) (bd : BookData) : Except String DbState :=
  match pyParseInt bd.bookid with
  | none => Except.error ("invalid literal for int: " ++ bd.bookid)
  | some bid =>
    Except.ok {
      books := mergeBookById st.books (bookRowOf bd bid),
      search := st.search ++ [searchRowOf bd bid st.nextRowid],
      nextRowid := st.nextRowid + 1 }

/-- Model of the per-line loop of `BookIndex._process_index_file`:
blank lines are skipped, lines whose parse yields no record contribute
nothing, a store that raises is caught and logged so the scan
continues, and the processed count grows by one per stored record.
Batch commits only group writes and do not change the final state. -/
def processLine (archiveName : String) (acc : DbState × Nat) (l : String) :
    DbState × Nat :=
  if pyStrip l = "" then acc
  else
    match parseBookMetadata l archiveName with
    | none => acc
    | some bd =>
      match storeBookData acc.1 bd with
      | Except.error _ => acc
      | Except.ok st2 => (st2, acc.2 + 1)

/-- Fold of `processLine` over a file's lines, starting from a store
state with a zero processed count. -/
def processIndexFile (st : DbState) (archiveName : String) (lines : List String) :
    DbState × Nat :=
  lines.foldl (processLine archiveName) (st, 0)

/-- Model of `BookIndex._should_rebuild_index`: no rebuild when the
catalog file is missing; always stale when the store holds zero
BookRecords; otherwise stale exactly when the current fingerprint
differs from the stored checksum (a missing stored checksum counts as
different, as `str != None` is true in Python). -/
def shouldRebuildIndex (indexFileExists : Bool) (bookCount : Nat)
    (currentChecksum : String) (storedChecksum : Option String) : Bool :=
  if !indexFileExists then false
  else if bookCount = 0 then true
  else decide (some currentChecksum ≠ storedChecksum)

/-- Outcomes of the effectful steps of one `create_index` run; an
`Except.error` models the step raising an exception. -/
structure RebuildEnv where
  indexFileExists : Bool
  clearTables : Except String Unit
  extractAll : Except String Unit
  processAndChecksum : Except String Unit
deriving Repr

/-- Observable outcome of a `create_index` run: the exception that
escaped (if any) and whether the scratch extraction directory still
exists when control returns to the caller. -/
structure RunResult where
  error : Option String
  tmpExists : Bool
deriving DecidableEq, Repr

/-- Model of `BookIndex.create_index`.  The source raises
`IndexNotFoundError` when the catalog file is missing, clears the
tables, then calls `_extract_index_archive` (which first creates the
scratch directory) OUTSIDE the `try` block; only the processing and
checksum phase is wrapped by `try ... finally: rmtree(tmp_path)`.
`tmp0` is whether the scratch directory already exists on entry (the
config validator creates it at construction time). -/
def createIndex (env : RebuildEnv) (tmp0 : Bool) : RunResult :=
  if !env.indexFileExists then { error := some "IndexNotFoundError", tmpExists := tmp0 }
  else
    match env.clearTables with
    | Except.error e => { error := some e, tmpExists := tmp0 }
    | Except.ok _ =>
      match env.extractAll with
      | Except.error e => { error := some e, tmpExists := true }
      | Except.ok _ =>
        match env.processAndChecksum with
        | Except.error e => { error := some e, tmpExists := false }
        | Except.ok _ => { error := none, tmpExists := false }

/-- SQL conditions produced by the query builder in `BookIndex.search`. -/
inductive Cond
  | idIn (ids : List Int)
  | titleLike (pat : String)
  | authorLike (pat : String)
  | genreLike (pat : String)
  | langEq (lang : String)
  | formatEq (fmt : String)
deriving DecidableEq, Repr

/-- Evaluation of one condition on a `books` row. -/
def evalCond (c : Cond) (r : BookRow) : Bool :=
  match c with
  | Cond.idIn ids => ids.contains r.id
  | Cond.titleLike p => ilikeContains r.title p
  | Cond.authorLike p => ilikeContains r.author p
  | Cond.genreLike p => ilikeContains r.genre p
  | Cond.langEq lang => r.language == lang
  | Cond.formatEq fmt => r.format == fmt

/-- Model of `BookIndex._build_title_condition`.  The FTS phrase lookup
is abstracted as an oracle returning either the matched ids or an
error (the raised exception). -/
def buildTitleCondition (fts : String → Except Unit (List Int)) (title : String) : Cond :=
  if title.length > 2 then
    match fts title with
    | Except.ok ids => if ids.isEmpty then Cond.titleLike title else Cond.idIn ids
    | Except.error _ => Cond.titleLike title
  else Cond.titleLike title

/-- Model of `BookIndex._build_author_condition`, symmetric to the
title condition. -/
def buildAuthorCondition (fts : String → Except Unit (List Int)) (author : String) : Cond :=
  if author.length > 2 then
    match fts author with
    | Except.ok ids => if ids.isEmpty then Cond.authorLike author else Cond.idIn ids
    | Except.error _ => Cond.authorLike author
  else Cond.authorLike author

/-- The `models.SearchQuery` value object.  The pydantic model declares
plain `int` pagination fields with defaults 50 and 0 and no bounds. -/
structure SearchQueryM where
  title : Option String
  author : Option String
  genre : Option String
  format : Option String
  language : Option String
  limit : Int
  offset : Int
deriving DecidableEq, Repr

/-- The `clean_search_terms` validator of `SearchQuery`: falsy values
pass through, otherwise whitespace runs collapse to single spaces. -/
def cleanSearchTerm (v : Option String) : Option String :=
  v.map (fun s => if s = "" then s else String.intercalate " " (pySplitWs s))

/-- Model of constructing `models.SearchQuery`: pydantic strips
whitespace from string fields (`str_strip_whitespace`), applies
`clean_search_terms` to title/author/genre, and performs no validation
at all on `limit` and `offset`, so construction always succeeds. -/
def mkSearchQuery (title author genre format language : Option String)
    (limit offset : Int) : Option SearchQueryM :=
  some {
    title := cleanSearchTerm (title.map pyStrip),
    author := cleanSearchTerm (author.map pyStrip),
    genre := cleanSearchTerm (genre.map pyStrip),
    format := format.map pyStrip,
    language := language.map pyStrip,
    limit := limit, offset := offset }

/-- One optional condition, guarded by Python truthiness of the term
(`if query.title:` is false for both `None` and the empty string). -/
def optCond (o : Option String) (f : String → Cond) : List Cond :=
  match o with
  | some s => if s = "" then [] else [f s]
  | none => []

/-- The conjunction of filter conditions built by `BookIndex.search`,
in source order: title, author, language, genre, format. -/
def buildConditions (ftsTitle ftsAuthor : String → Except Unit (List Int))
    (q : SearchQueryM) : List Cond :=
  optCond q.title (buildTitleCondition ftsTitle) ++
  optCond q.author (buildAuthorCondition ftsAuthor) ++
  optCond q.language Cond.langEq ++
  optCond q.genre Cond.genreLike ++
  optCond q.format Cond.formatEq

/-- SQLite pagination semantics for `OFFSET o LIMIT k`: a negative
offset behaves as 0, a negative limit means no limit. -/
def sqlPage (l : List BookRow) (limit offset : Int) : List BookRow :=
  (l.drop offset.toNat).take (if limit < 0 then l.length else limit.toNat)

/-- The relevant fields of `models.SearchResult`. -/
structure SearchResultM where
  books : List BookRow
  total_count : Nat
deriving DecidableEq, Repr

/-- Model of `BookIndex.search`: build the conditions, AND them over
the `books` table, count the full filtered set, then apply offset and
limit for the page.  Row order is storage order, and the per-row Book
model conversion is the identity here. -/
def search (ftsTitle ftsAuthor : String → Except Unit (List Int))
    (rows : List BookRow) (q : SearchQueryM) : SearchResultM :=
  let conds := buildConditions ftsTitle ftsAuthor q
  let filtered :=
    if conds.isEmpty then rows
    else rows.filter (fun r => conds.all (fun c => evalCond c r))
  { books := sqlPage filtered q.limit q.offset, total_count := filtered.length }

/-- The fields of `models.ExtractionResult` relevant here. -/
structure ExtractionResultM where
  book_id : Int
  original_filename : String
  extracted_filename : String
  file_size : Nat
  success : Bool
  error_message : Option String
deriving DecidableEq, Repr

/-- Result of one `extract_book` call together with whether any
filesystem operation was attempted (the not-found branch returns
before the output directory is even created). -/
structure ExtractOutcome where
  result : ExtractionResultM
  touchedFs : Bool
deriving DecidableEq, Repr

/-- Effectful environment of one `extract_book` call: the `books`
table, the base data directory, whether `mkdir` on the extraction
directory raises, whether the archive shard exists, and the outcome of
the extract/rename/stat phase (`ok` carries the final file's size,
`error` the raised exception's message). -/
structure ExtractEnv where
  books : List BookRow
  dataDir : String
  mkdirStep : Except String Unit
  archiveExists : Bool
  extractStep : Except String Nat

/-- Model of `BookIndex.extract_book`.  The whole body after the
record lookup sits inside `try ... except Exception`, whose handler
builds a failure result from whatever locals were already assigned, so
the function is total: every path returns an `ExtractionResult`. -/
def extractBook (env : ExtractEnv) (bookId : Int) : ExtractOutcome :=
  match env.books.find? (fun r => r.id == bookId) with
  | none =>
    { result := {
        book_id := bookId, original_filename := "", extracted_filename := "",
        file_size := 0, success := false,
        error_message := some ("Book with ID " ++ toString bookId ++ " not found") },
      touchedFs := false }
  | some rec =>
    match env.mkdirStep with
    | Except.error e =>
      { result := {
          book_id := bookId, original_filename := "", extracted_filename := "",
          file_size := 0, success := false, error_message := some e },
        touchedFs := true }
    | Except.ok _ =>
      let origName := toString bookId ++ "." ++ rec.format
      let extrName := sanitizeName rec.author ++ " - " ++ sanitizeName rec.title
        ++ "." ++ rec.format
      if !env.archiveExists then
        { result := {
            book_id := bookId, original_filename := origName,
            extracted_filename := extrName, file_size := 0, success := false,
            error_message := some ("Archive file not found: " ++ env.dataDir
              ++ "/fb2.Flibusta.Net/" ++ rec.archive_file) },
          touchedFs := true }
      else
        match env.extractStep with
        | Except.error e =>
          { result := {
              book_id := bookId, original_filename := origName,
              extracted_filename := extrName, file_size := 0, success := false,
              error_message := some e },
            touchedFs := true }
        | Except.ok size =>
          { result := {
              book_id := bookId, original_filename := origName,
              extracted_filename := extrName, file_size := size, success := true,
              error_message := none },
            touchedFs := true }

/-- A string is whitespace-trimmed: neither its first nor its last
character is whitespace. -/
def trimmedStr (s : String) : Prop :=
  (∀ c, s.data.head? = some c → isPySpace c = false) ∧
  (∀ c, s.data.getLast? = some c → isPySpace c = false)

/-- An FTS oracle that finds nothing, for concrete instantiations. -/
def ftsEmpty : String → Except Unit (List Int) := fun _ => Except.ok []

/-- Sample stored row whose title contains the query "Karen" only as a
partial word. -/
def annaRow : BookRow :=
  { id := 7, title := "Anna Karenina", author := "Leo Tolstoy", genre := "Novel",
    language := "ru", format := "fb2", size := 100, archive_file := "f-1.zip" }

/-- Sample well-formed catalog line (12 fields, id 7). -/
def line12 : String :=
  "Tolstoy Leo\x04Novel\x04Anna Karenina\x04x\x04y\x047\x04100\x04z\x04w\x04fb2\x042020\x04ru"

/-- Sample catalog line with a negative size field. -/
def lineNeg : String :=
  "Auth\x04Gen\x04Title\x04a\x04b\x0412\x04-5\x04c\x04d\x04fb2\x04d2\x04ru"

/-- Sample malformed catalog line (a single field). -/
def lineShort : String := "ab"

/-- Sample parsed book data with id 1. -/
def bd1 : BookData :=
  { bookid := "1", title := "T", author := "A", genre := "", language := "ru",
    format := "fb2", date_added := "", size := 0, archive_file := "f.zip" }

/-- Sample query with no filters, limit 20 and offset 40. -/
def q2040 : SearchQueryM :=
  { title := none, author := none, genre := none, format := none, language := none,
    limit := 20, offset := 40 }

/-- Fifty-five sample rows. -/
def rows55 : List BookRow :=
  (List.range 55).map (fun i => { annaRow with id := (i : Int) })

/-- The parse of `line12`. -/
def bdLine12 : BookData :=
  { bookid := "7", title := "Anna Karenina", author := "Tolstoy Leo",
    genre := "Novel", language := "ru", format := "fb2", date_added := "2020",
    size := 100, archive_file := "f-1.zip" }

/-- A store already holding a row with id 7. -/
def stAnna : DbState := { books := [annaRow], search := [], nextRowid := 0 }

/-- The store after re-storing id 7 into `stAnna`. -/
def stAnna2 : DbState :=
  { books := [bookRowOf bdLine12 7],
    search := [searchRowOf bdLine12 7 0], nextRowid := 1 }

/-- A rebuild run whose archive extraction raises. -/
def envBadZip : RebuildEnv :=
  { indexFileExists := true, clearTables := Except.ok (),
    extractAll := Except.error "BadZipFile",
    processAndChecksum := Except.ok () }

/-- A rebuild run whose processing phase raises. -/
def envDiskFull : RebuildEnv :=
  { indexFileExists := true, clearTables := Except.ok (),
    extractAll := Except.ok (),
    processAndChecksum := Except.error "disk full" }

/-- An extraction environment whose store is empty. -/
def envNotFound : ExtractEnv :=
  { books := [], dataDir := "data", mkdirStep := Except.ok (),
    archiveExists := true, extractStep := Except.ok 5 }

/-- The store after storing `bd1` once into the empty store. -/
def stC8a : DbState :=
  { books := [bookRowOf bd1 1], search := [searchRowOf bd1 1 0], nextRowid := 1 }

/-- The store after storing `bd1` a second time. -/
def stC8b : DbState :=
  { books := [bookRowOf bd1 1],
    search := [searchRowOf bd1 1 0, searchRowOf bd1 1 1], nextRowid := 2 }

/-- The parse of `lineNeg`: its size field "-5" yields the integer -5. -/
def bdNeg : BookData :=
  { bookid := "12", title := "Title", author := "Auth", genre := "Gen",
    language := "ru", format := "fb2", date_added := "d2", size := -5,
    archive_file := "a.zip" }

/-- A query with out-of-bounds pagination values. -/
def qNeg : SearchQueryM :=
  { title := none, author := none, genre := none, format := none,
    language := none, limit := -5, offset := -7 }

end Pybusta

namespace Pybusta

theorem head?_dropWhile_not {α : Type} (p : α → Bool) (l : List α) (c : α)
    (h : (l.dropWhile p).head? = some c) : p c = false := by
  induction l with
  | nil => simp [List.dropWhile] at h
  | cons a t ih =>
    rw [List.dropWhile_cons] at h
    rcases Bool.eq_false_or_eq_true (p a) with hpa | hpa
    · exact ih (by simpa [hpa] using h)
    · simp only [hpa, if_false, Bool.false_eq_true, List.head?_cons,
        Option.some.injEq] at h
      subst h; exact hpa

theorem getLast?_dropWhile_some {α : Type} (p : α → Bool) (l : List α) (c : α)
    (h : (l.dropWhile p).getLast? = some c) : l.getLast? = some c := by
  induction l with
  | nil => simp [List.dropWhile] at h
  | cons a t ih =>
    rw [List.dropWhile_cons] at h
    rcases Bool.eq_false_or_eq_true (p a) with hpa | hpa
    · have ht := ih (by simpa [hpa] using h)
      cases t with
      | nil => simp at ht
      | cons b t2 => rw [List.getLast?_cons_cons]; exact ht
    · simpa [hpa] using h

theorem mem_of_mem_dropWhile {α : Type} {p : α → Bool} {l : List α} {c : α}
    (h : c ∈ l.dropWhile p) : c ∈ l := by
  induction l with
  | nil => simp [List.dropWhile] at h
  | cons a t ih =>
    rw [List.dropWhile_cons] at h
    rcases Bool.eq_false_or_eq_true (p a) with hpa | hpa
    · simp only [hpa, if_true] at h
      exact List.mem_cons_of_mem _ (ih h)
    · simpa [hpa] using h

theorem mem_stripList {l : List Char} {c : Char} (h : c ∈ stripList l) : c ∈ l := by
  simp only [stripList] at h
  have h1 := mem_of_mem_dropWhile h
  rw [List.mem_reverse] at h1
  have h2 := mem_of_mem_dropWhile h1
  rwa [List.mem_reverse] at h2

theorem stripList_head_not (l : List Char) (c : Char)
    (h : (stripList l).head? = some c) : isPySpace c = false := by
  simp only [stripList] at h
  exact head?_dropWhile_not _ _ _ h

theorem stripList_getLast_not (l : List Char) (c : Char)
    (h : (stripList l).getLast? = some c) : isPySpace c = false := by
  simp only [stripList] at h
  have h2 := getLast?_dropWhile_some _ _ _ h
  rw [List.getLast?_reverse] at h2
  exact head?_dropWhile_not _ _ _ h2

theorem trimmedStr_pyStrip (s : String) : trimmedStr (pyStrip s) :=
  ⟨fun c h => stripList_head_not s.data c h, fun c h => stripList_getLast_not s.data c h⟩

theorem mem_pyStrip {s : String} {c : Char} (h : c ∈ (pyStrip s).data) : c ∈ s.data :=
  mem_stripList h

theorem mem_pyDeleteChar {a c : Char} {s : String} (h : c ∈ (pyDeleteChar a s).data) :
    c ≠ a ∧ c ∈ s.data := by
  simp only [pyDeleteChar] at h
  rw [List.mem_filter] at h
  exact ⟨of_decide_eq_true h.2, h.1⟩

theorem mem_pyReplaceChar {a b c : Char} {s : String} (hne : b ≠ a)
    (h : c ∈ (pyReplaceChar a b s).data) : c ≠ a := by
  simp only [pyReplaceChar] at h
  rw [List.mem_map] at h
  obtain ⟨y, _, hy⟩ := h
  by_cases hya : y = a
  · subst hya; simp at hy; subst hy; exact hne
  · simp [hya] at hy; subst hy; exact hya

/-- C1: for a title or author term of length at most 2 the condition is
case-insensitive substring matching on that column; for longer terms
an FTS phrase lookup is attempted first, and the condition falls back
to case-insensitive substring matching exactly when the lookup raises
or returns zero ids (a nonempty id set becomes an id-membership
condition), so under fallback a record matching only as a substring is
still returned. -/
theorem C1_fts_fallback (fts : String → Except Unit (List Int)) (term : String)
    (row : BookRow) :
    (term.length ≤ 2 →
      buildTitleCondition fts term = Cond.titleLike term ∧
      buildAuthorCondition fts term = Cond.authorLike term) ∧
    (term.length > 2 → fts term = Except.error () →
      buildTitleCondition fts term = Cond.titleLike term ∧
      buildAuthorCondition fts term = Cond.authorLike term) ∧
    (term.length > 2 → fts term = Except.ok [] →
      buildTitleCondition fts term = Cond.titleLike term ∧
      buildAuthorCondition fts term = Cond.authorLike term) ∧
    (∀ ids, term.length > 2 → ids ≠ [] → fts term = Except.ok ids →
      buildTitleCondition fts term = Cond.idIn ids ∧
      buildAuthorCondition fts term = Cond.idIn ids) ∧
    evalCond (Cond.titleLike term) row = ilikeContains row.title term ∧
    evalCond (Cond.authorLike term) row = ilikeContains row.author term := by
  refine ⟨?_, ?_, ?_, ?_, rfl, rfl⟩
  · intro h
    exact ⟨by unfold buildTitleCondition; rw [if_neg (by omega)],
           by unfold buildAuthorCondition; rw [if_neg (by omega)]⟩
  · intro h hf
    exact ⟨by unfold buildTitleCondition; rw [if_pos h, hf],
           by unfold buildAuthorCondition; rw [if_pos h, hf]⟩
  · intro h hf
    exact ⟨by unfold buildTitleCondition; rw [if_pos h, hf]; rfl,
           by unfold buildAuthorCondition; rw [if_pos h, hf]; rfl⟩
  · intro ids h hne hf
    constructor
    · unfold buildTitleCondition
      rw [if_pos h, hf]
      simp [List.isEmpty_iff, hne]
    · unfold buildAuthorCondition
      rw [if_pos h, hf]
      simp [List.isEmpty_iff, hne]

/-- C1 witness: for the record titled "Anna Karenina" and the query
"Karen" (length 5), an FTS lookup returning zero ids falls back to the
substring condition, and that condition matches the record. -/
theorem C1_fts_fallback_witness :
    "Karen".length > 2 ∧ ftsEmpty "Karen" = Except.ok [] ∧
    buildTitleCondition ftsEmpty "Karen" = Cond.titleLike "Karen" ∧
    evalCond (buildTitleCondition ftsEmpty "Karen") annaRow = true := by
  have h := (C1_fts_fallback ftsEmpty "Karen" annaRow).2.2.1 (by decide) rfl
  refine ⟨by decide, rfl, h.1, ?_⟩
  rw [h.1]
  decide

/-- C3 counterexample: with the catalog file present and table clearing
succeeding, an exception raised inside archive extraction (after the
rebuild has started and the scratch directory was created) escapes
`create_index` while the scratch directory still exists, because
`_extract_index_archive` is called outside the `try`/`finally` block. -/
theorem C3_cleanup_counterexample :
    (createIndex envBadZip true).error = some "BadZipFile" ∧
    (createIndex envBadZip true).tmpExists = true :=
  ⟨rfl, rfl⟩

/-- C3 (amended): once archive extraction has succeeded, the scratch
directory is removed on every exit path of the remaining rebuild —
normal completion and any exception raised while processing index
files or storing the checksum; an exception raised before or during
the archive extraction itself leaves the scratch directory in place. -/
theorem C3_cleanup_after_extract (env : RebuildEnv) (tmp0 : Bool)
    (hfile : env.indexFileExists = true)
    (hclear : env.clearTables = Except.ok ())
    (hextract : env.extractAll = Except.ok ()) :
    (createIndex env tmp0).tmpExists = false := by
  unfold createIndex
  rw [hfile, hclear, hextract]
  rcases hp : env.processAndChecksum with e | u <;> simp [hp]

/-- C3 witness: a run whose processing phase raises still exits with
the scratch directory removed. -/
theorem C3_cleanup_after_extract_witness :
    (createIndex envDiskFull true).tmpExists = false :=
  C3_cleanup_after_extract envDiskFull true rfl rfl rfl

/-- C2: storing a parsed catalog line whose id equals the id of a
BookRecord already in the store overwrites that record (merge on the
primary key): the BookRecord count does not increase, every row with
that id is the newly stored row, the newly stored row is present, and
distinctness of ids is preserved. -/
theorem C2_upsert_on_id (line arch : String) (st : DbState) (bd : BookData)
    (bid : Int) (st2 : DbState)
    (_hline : parseBookMetadata line arch = some bd)
    (hid : pyParseInt bd.bookid = some bid)
    (hmem : ∃ r ∈ st.books, r.id = bid)
    (hok : storeBookData st bd = Except.ok st2) :
    st2.books.length = st.books.length ∧
    (∀ x ∈ st2.books, x.id = bid → x = bookRowOf bd bid) ∧
    bookRowOf bd bid ∈ st2.books ∧
    ((st.books.map BookRow.id).Nodup → (st2.books.map BookRow.id).Nodup) := by
  rcases hmem with ⟨r, hr, hrid⟩
  simp only [storeBookData, hid] at hok
  injection hok with h2
  subst h2
  have hany : st.books.any (fun x => x.id == (bookRowOf bd bid).id) = true :=
    List.any_eq_true.mpr ⟨r, hr, by simp [bookRowOf, hrid]⟩
  have hmerge : mergeBookById st.books (bookRowOf bd bid) =
      st.books.map (fun x => if x.id == (bookRowOf bd bid).id then bookRowOf bd bid else x) := by
    rw [mergeBookById, if_pos hany]
  refine ⟨?_, ?_, ?_, ?_⟩
  · simp only [hmerge, List.length_map]
  · intro x hx hxid
    simp only [hmerge, List.mem_map] at hx
    obtain ⟨y, _, hfy⟩ := hx
    rcases Bool.eq_false_or_eq_true (y.id == (bookRowOf bd bid).id) with hb | hb
    · simp only [hb, if_true] at hfy
      exact hfy.symm
    · simp only [hb, Bool.false_eq_true, if_false] at hfy
      subst hfy
      exact absurd hxid (by simpa [bookRowOf] using hb)
  · simp only [hmerge, List.mem_map]
    exact ⟨r, hr, by simp [bookRowOf, hrid]⟩
  · intro hnd
    have hids : (st.books.map (fun x =>
        if x.id == (bookRowOf bd bid).id then bookRowOf bd bid else x)).map BookRow.id =
        st.books.map BookRow.id := by
      rw [List.map_map]
      apply List.map_congr_left
      intro y _
      by_cases hy : y.id = (bookRowOf bd bid).id
      · simp [Function.comp, hy]
      · simp [Function.comp, hy]
    simpa only [hmerge, hids] using hnd

/-- C2 witness: re-indexing a line with id 7 into a store already
holding a row with id 7 keeps the BookRecord count at 1 and keeps ids
distinct. -/
theorem C2_upsert_on_id_witness :
    parseBookMetadata line12 "f-1.zip" = some bdLine12 ∧
    storeBookData stAnna bdLine12 = Except.ok stAnna2 ∧
    stAnna2.books.length = stAnna.books.length ∧
    (stAnna2.books.map BookRow.id).Nodup := by
  have hline : parseBookMetadata line12 "f-1.zip" = some bdLine12 := by decide
  have hok : storeBookData stAnna bdLine12 = Except.ok stAnna2 := by decide
  have h := C2_upsert_on_id line12 "f-1.zip" stAnna bdLine12 7 stAnna2 hline
    (by decide) ⟨annaRow, by decide, by decide⟩ hok
  exact ⟨hline, hok, h.1, h.2.2.2 (by decide)⟩

/-- C4: `extract_book` never raises (it is a total function into
`ExtractionResult`): a missing book id yields a failure result with a
not-found message and no filesystem side effect; a missing archive
shard yields a failure result with an explicit message; any exception
raised during extraction (directory creation or the
extract/rename/stat phase) becomes a failure result carrying the
exception message; and a success result reports the extracted file's
size with no error message. -/
theorem C4_extract_total (env : ExtractEnv) (bookId : Int) :
    (env.books.find? (fun r => r.id == bookId) = none →
      (extractBook env bookId).result.success = false ∧
      (extractBook env bookId).result.error_message =
        some ("Book with ID " ++ toString bookId ++ " not found") ∧
      (extractBook env bookId).touchedFs = false) ∧
    (∀ rec, env.books.find? (fun r => r.id == bookId) = some rec →
      env.mkdirStep = Except.ok () → env.archiveExists = false →
      (extractBook env bookId).result.success = false ∧
      (extractBook env bookId).result.error_message =
        some ("Archive file not found: " ++ env.dataDir ++ "/fb2.Flibusta.Net/"
          ++ rec.archive_file)) ∧
    (∀ rec e, env.books.find? (fun r => r.id == bookId) = some rec →
      env.mkdirStep = Except.ok () → env.extractStep = Except.error e →
      env.archiveExists = true →
      (extractBook env bookId).result.success = false ∧
      (extractBook env bookId).result.error_message = some e) ∧
    (∀ rec e, env.books.find? (fun r => r.id == bookId) = some rec →
      env.mkdirStep = Except.error e →
      (extractBook env bookId).result.success = false ∧
      (extractBook env bookId).result.error_message = some e) ∧
    ((extractBook env bookId).result.success = true →
      (extractBook env bookId).result.error_message = none ∧
      env.extractStep = Except.ok (extractBook env bookId).result.file_size) := by
  refine ⟨?_, ?_, ?_, ?_, ?_⟩
  · intro hf
    simp [extractBook, hf]
  · intro rec hf hm ha
    simp [extractBook, hf, hm, ha]
  · intro rec e hf hm hx ha
    simp [extractBook, hf, hm, hx, ha]
  · intro rec e hf hm
    simp [extractBook, hf, hm]
  · intro hs
    rcases hfq : env.books.find? (fun r => r.id == bookId) with _ | rec
    · simp [extractBook, hfq] at hs
    · rcases hmq : env.mkdirStep with e0 | u
      · simp [extractBook, hfq, hmq] at hs
      · rcases haq : env.archiveExists with _ | _
        · simp [extractBook, hfq, hmq, haq] at hs
        · rcases hxq : env.extractStep with e1 | sz
          · simp [extractBook, hfq, hmq, haq, hxq] at hs
          · exact ⟨by simp [extractBook, hfq, hmq, haq, hxq],
                   by simp [extractBook, hfq, hmq, haq, hxq]⟩

/-- C4 witness: extracting id 9 from an empty store returns a failure
result with the not-found message and touches no file. -/
theorem C4_extract_total_witness :
    (extractBook envNotFound 9).result.success = false ∧
    (extractBook envNotFound 9).result.error_message = some "Book with ID 9 not found" ∧
    (extractBook envNotFound 9).touchedFs = false := by
  have h := (C4_extract_total envNotFound 9).1 (by decide)
  refine ⟨h.1, ?_, h.2.2⟩
  rw [h.2.1]
  rfl

/-- C5: parsing one catalog line yields at most one record (the parse
is an `Option`), a line with fewer than 12 separator-delimited fields
parses to nothing, a successfully parsed record has non-empty id,
title, and author after cleaning, and a line whose parse yields
nothing or whose store raises leaves the state unchanged while
subsequent lines are still processed. -/
theorem C5_per_line_tolerance (line arch : String) (st : DbState) (ls : List String) :
    ((pySplitSep (pyStrip line)).length < 12 → parseBookMetadata line arch = none) ∧
    (∀ bd, parseBookMetadata line arch = some bd →
      bd.bookid ≠ "" ∧ bd.title ≠ "" ∧ bd.author ≠ "") ∧
    (parseBookMetadata line arch = none →
      processIndexFile st arch (line :: ls) = processIndexFile st arch ls) ∧
    (∀ bd e, parseBookMetadata line arch = some bd →
      storeBookData st bd = Except.error e →
      processIndexFile st arch (line :: ls) = processIndexFile st arch ls) := by
  refine ⟨?_, ?_, ?_, ?_⟩
  · intro h
    unfold parseBookMetadata
    rw [if_pos h]
  · intro bd h
    unfold parseBookMetadata at h
    split at h
    · simp at h
    · split at h
      · simp at h
      · rename_i hguard
        injection h with h2
        subst h2
        simp only [Bool.or_eq_true, decide_eq_true_eq, not_or] at hguard
        exact ⟨hguard.1.1, hguard.1.2, hguard.2⟩
  · intro h
    simp only [processIndexFile, List.foldl_cons]
    have hstep : processLine arch (st, 0) line = (st, 0) := by
      unfold processLine
      rw [h]
      split <;> rfl
    rw [hstep]
  · intro bd e hbd hst
    simp only [processIndexFile, List.foldl_cons]
    have hstep : processLine arch (st, 0) line = (st, 0) := by
      simp only [processLine, hbd]
      simp only [hst]
      split <;> rfl
    rw [hstep]

/-- C5 witness: a one-field line contributes nothing and does not stop
the good line after it from being processed. -/
theorem C5_per_line_tolerance_witness :
    (pySplitSep (pyStrip lineShort)).length < 12 ∧
    parseBookMetadata lineShort "z.zip" = none ∧
    processIndexFile emptyDb "z.zip" (lineShort :: [line12]) =
      processIndexFile emptyDb "z.zip" [line12] ∧
    (processIndexFile emptyDb "z.zip" [lineShort, line12]).2 = 1 := by
  have h := C5_per_line_tolerance lineShort "z.zip" emptyDb [line12]
  exact ⟨by decide, h.1 (by decide), h.2.2.1 (h.1 (by decide)), by decide⟩

/-- C6: `total_count` is the number of rows matching the conjunction of
all filter conditions before pagination, and the returned page is the
filtered set with offset then limit applied, so its length is
`min limit (total_count - offset)`; in particular 55 matching records
with limit 20 and offset 40 give a page of 15 and a total of 55. -/
theorem C6_pagination (ftsT ftsA : String → Except Unit (List Int))
    (rows : List BookRow) (q : SearchQueryM)
    (hl : 0 ≤ q.limit) (_ho : 0 ≤ q.offset) :
    (search ftsT ftsA rows q).total_count =
      (rows.filter (fun r =>
        (buildConditions ftsT ftsA q).all (fun c => evalCond c r))).length ∧
    (search ftsT ftsA rows q).books =
      ((rows.filter (fun r =>
        (buildConditions ftsT ftsA q).all (fun c => evalCond c r))).drop
          q.offset.toNat).take q.limit.toNat ∧
    (search ftsT ftsA rows q).books.length =
      min q.limit.toNat ((search ftsT ftsA rows q).total_count - q.offset.toNat) ∧
    ((search ftsT ftsA rows q).total_count = 55 → q.limit = 20 → q.offset = 40 →
      (search ftsT ftsA rows q).books.length = 15) := by
  have hfiltered : (if (buildConditions ftsT ftsA q).isEmpty then rows
      else rows.filter (fun r =>
        (buildConditions ftsT ftsA q).all (fun c => evalCond c r))) =
      rows.filter (fun r =>
        (buildConditions ftsT ftsA q).all (fun c => evalCond c r)) := by
    rcases hq : (buildConditions ftsT ftsA q).isEmpty with _ | _
    · simp
    · rw [if_pos rfl, List.isEmpty_iff.mp hq]
      simp
  have htc : (search ftsT ftsA rows q).total_count =
      (rows.filter (fun r =>
        (buildConditions ftsT ftsA q).all (fun c => evalCond c r))).length := by
    simp only [search, hfiltered]
  have hbooks : (search ftsT ftsA rows q).books =
      ((rows.filter (fun r =>
        (buildConditions ftsT ftsA q).all (fun c => evalCond c r))).drop
          q.offset.toNat).take q.limit.toNat := by
    simp only [search, hfiltered, sqlPage]
    rw [if_neg (by omega)]
  have hlen : (search ftsT ftsA rows q).books.length =
      min q.limit.toNat ((search ftsT ftsA rows q).total_count - q.offset.toNat) := by
    rw [hbooks, htc, List.length_take, List.length_drop]
  refine ⟨htc, hbooks, hlen, ?_⟩
  intro h55 h20 h40
  rw [hlen, h55, h20, h40]
  rfl

/-- C6 witness: on 55 matching rows with limit 20 and offset 40 the
page has 15 rows while the total count is 55. -/
theorem C6_pagination_witness :
    (search ftsEmpty ftsEmpty rows55 q2040).total_count = 55 ∧
    (search ftsEmpty ftsEmpty rows55 q2040).books.length = 15 := by
  have h := C6_pagination ftsEmpty ftsEmpty rows55 q2040 (by decide) (by decide)
  have h55 : (search ftsEmpty ftsEmpty rows55 q2040).total_count = 55 := by decide
  exact ⟨h55, h.2.2.2 h55 rfl rfl⟩

/-- C7: the staleness check triggers a rebuild exactly when the catalog
file exists and either the store holds zero BookRecords or the stored
checksum differs from the current fingerprint (a missing stored value
counts as different); a missing catalog file never triggers a rebuild;
and with records present and the stored checksum equal to the current
fingerprint no rebuild is triggered, so the constructor performs no
further writes on an unchanged bundle. -/
theorem C7_staleness (fileExists : Bool) (cnt : Nat) (fp : String)
    (stored : Option String) :
    (shouldRebuildIndex fileExists cnt fp stored = true ↔
      fileExists = true ∧ (cnt = 0 ∨ stored ≠ some fp)) ∧
    (fileExists = false → shouldRebuildIndex fileExists cnt fp stored = false) ∧
    (0 < cnt → shouldRebuildIndex true cnt fp (some fp) = false) := by
  refine ⟨?_, ?_, ?_⟩
  · rcases fileExists with _ | _
    · simp [shouldRebuildIndex]
    · rcases Nat.eq_zero_or_pos cnt with h0 | hpos
      · simp [shouldRebuildIndex, h0]
      · rw [shouldRebuildIndex, if_neg (by simp), if_neg (by omega)]
        constructor
        · intro h
          exact ⟨rfl, Or.inr (Ne.symm (of_decide_eq_true h))⟩
        · rintro ⟨-, h0 | hne⟩
          · omega
          · exact decide_eq_true (Ne.symm hne)
  · intro h
    subst h
    simp [shouldRebuildIndex]
  · intro hpos
    rw [shouldRebuildIndex, if_neg (by simp), if_neg (by omega)]
    simp

/-- C7 witness: concrete staleness decisions — unchanged bundle with a
populated store is not rebuilt; missing catalog file is not rebuilt;
empty store and changed checksum are rebuilt. -/
theorem C7_staleness_witness :
    shouldRebuildIndex true 3 "abc" (some "abc") = false ∧
    shouldRebuildIndex false 0 "abc" none = false ∧
    shouldRebuildIndex true 0 "abc" (some "abc") = true ∧
    shouldRebuildIndex true 3 "abc" (some "old") = true := by
  have h1 := (C7_staleness true 3 "abc" (some "abc")).2.2 (by omega)
  have h2 := (C7_staleness false 0 "abc" none).2.1 rfl
  have h3 := (C7_staleness true 0 "abc" (some "abc")).1.mpr ⟨rfl, Or.inl rfl⟩
  have h4 := (C7_staleness true 3 "abc" (some "old")).1.mpr ⟨rfl, Or.inr (by decide)⟩
  exact ⟨h1, h2, h3, h4⟩

/-- C8: evaluation at the failing input.  Storing the same parsed
record (id 1) twice leaves one `books` row but TWO `book_search` rows
sharing id 1 under distinct rowids: because the projection's primary
key is the autoincrement `rowid` and it is never set, `session.merge`
treats each record as transient and inserts instead of overwriting,
contradicting the one-row-per-BookRecord-id invariant. -/
theorem C8_duplicate_projection_rows :
    storeBookData emptyDb bd1 = Except.ok stC8a ∧
    storeBookData stC8a bd1 = Except.ok stC8b ∧
    stC8b.books.length = 1 ∧
    stC8b.search.length = 2 ∧
    stC8b.search.map SearchRow.id = [1, 1] ∧
    ¬ (stC8b.search.map SearchRow.id).Nodup := by
  refine ⟨by decide, by decide, by decide, by decide, by decide, ?_⟩
  decide

/-- C9 counterexample: `lineNeg` parses successfully and its size field
"-5" passes Python `int` with the sign, so the parsed size is the
negative integer -5, refuting the claimed non-negativity of the size
of every successfully parsed line. -/
theorem C9_negative_size_counterexample :
    parseBookMetadata lineNeg "a.zip" = some bdNeg ∧
    bdNeg.size = -5 ∧ bdNeg.size < 0 := by
  refine ⟨by decide, by decide, by decide⟩

/-- C9 (amended): for every successfully parsed catalog line the
cleaned author contains no comma and no colon and is
whitespace-trimmed, the title is trimmed, the genre contains no colon
and is trimmed, and the size is the integer value (sign included) of
the size field, defaulting to 0 exactly when integer parsing fails. -/
theorem C9_field_cleaning (line arch : String) (bd : BookData)
    (h : parseBookMetadata line arch = some bd) :
    (∀ c ∈ bd.author.data, c ≠ ',' ∧ c ≠ ':') ∧ trimmedStr bd.author ∧
    trimmedStr bd.title ∧
    (∀ c ∈ bd.genre.data, c ≠ ':') ∧ trimmedStr bd.genre ∧
    (pyParseInt (parsedField line 6) = none → bd.size = 0) ∧
    (∀ n, pyParseInt (parsedField line 6) = some n → bd.size = n) := by
  unfold parseBookMetadata at h
  split at h
  · simp at h
  · split at h
    · simp at h
    · injection h with h2
      subst h2
      refine ⟨?_, ?_, ?_, ?_, ?_, ?_, ?_⟩
      · intro c hc
        have hc1 := mem_pyStrip hc
        have hc2 := mem_pyDeleteChar hc1
        exact ⟨mem_pyReplaceChar (by decide) hc2.2, hc2.1⟩
      · exact trimmedStr_pyStrip _
      · exact trimmedStr_pyStrip _
      · intro c hc
        exact (mem_pyDeleteChar (mem_pyStrip hc)).1
      · exact trimmedStr_pyStrip _
      · intro hn
        simp [pyIntOr0, hn]
      · intro n hn
        simp [pyIntOr0, hn]

/-- C9 witness: the parse of `line12` has a trimmed, comma- and
colon-free author and size 100 parsed from its size field. -/
theorem C9_field_cleaning_witness :
    parseBookMetadata line12 "f-1.zip" = some bdLine12 ∧
    trimmedStr bdLine12.author ∧ bdLine12.size = 100 := by
  have hp : parseBookMetadata line12 "f-1.zip" = some bdLine12 := by decide
  have h := C9_field_cleaning line12 "f-1.zip" bdLine12 hp
  exact ⟨hp, h.2.1, h.2.2.2.2.2.2 100 (by decide)⟩

/-- C10 counterexample: `SearchQuery` construction accepts limit -5 and
offset -7, storing them unchanged, so queries violating the claimed
bounds (limit in 1-1000, offset ≥ 0) are not rejected at
construction. -/
theorem C10_no_bounds_counterexample :
    mkSearchQuery none none none none none (-5) (-7) = some qNeg ∧
    qNeg.limit < 1 ∧ qNeg.offset < 0 :=
  ⟨rfl, by decide, by decide⟩

/-- C10 (amended): the `SearchQuery` model performs no bounds
validation on its pagination fields: construction always succeeds and
stores any integer limit and offset unchanged; the 1-1000 and ≥0
bounds are enforced only by the CLI and web entry points, not by the
model. -/
theorem C10_no_bounds (t a g f l : Option String) (limit offset : Int) :
    ∃ q, mkSearchQuery t a g f l limit offset = some q ∧
      q.limit = limit ∧ q.offset = offset :=
  ⟨_, rfl, rfl, rfl⟩

end Pybusta
